/-
Verification of the oracle-core decision layer: the refresh consensus
algorithm (outlier rejection, quorum, reward bookkeeping), the pool-update
vote tally, and the datapoint aggregator, shallowly embedded from the Rust
sources (src/core/src/pool_commands/refresh.rs,
src/core/src/cli_commands/update_pool.rs, src/core/src/datapoint_source.rs).

Machine integers (i64 rates, u64 token amounts) are modelled as Int/Nat;
Rust i64 division `/` truncates toward zero and is modelled by Int.tdiv.
Rust panics (unwrap on checked arithmetic, division by zero, min()/max()
on an empty iterator) are modelled by explicit `panic` / `none` results.
-/
import Mathlib

namespace OracleCore

/-- Oracle rates are Rust i64 (`Rate` newtype over i64). -/
abbrev Rate := Int

/-- Result of `filtered_oracle_boxes_by_rate` (refresh.rs).  `panic` models a
Rust panic (`.min().unwrap()` on an empty survivor list). -/
inductive FilterResult where
  | ok (survivors : List Rate)
  | notEnoughDatapoints
  | panic
deriving DecidableEq, Repr

/-- `deviation_check` (refresh.rs lines 251-256): the minimum datapoint must be
within `max * deviation_range / 100` of the maximum, with Rust i64 division
(truncation toward zero, `Int.tdiv`).  The source calls `.min().unwrap()` /
`.max().unwrap()` and panics on an empty list; the empty branch here is
never reached by the callers modelled below. -/
def deviation_check (max_deviation_range : Nat) (datapoint_boxes : List Rate) : Bool :=
  match datapoint_boxes.min?, datapoint_boxes.max? with
  | some min_datapoint, some max_datapoint =>
      max_datapoint - min_datapoint ≤ Int.tdiv (max_datapoint * max_deviation_range) 100
  | _, _ => true

/-! #### IEEE-754 binary32 model

`remove_largest_local_deviation_datapoint` compares `max - mean ≥ mean - min`
with the mean computed in f32 (`sum.as_f32() / len as f32`, refresh.rs lines
268-274).  A finite binary32 value is modelled exactly as a scaled integer
`m * 2^e`; every operation the source performs (int-to-f32 conversion,
division, subtraction) is correctly rounded to nearest, ties to even, with a
24-bit significand and subnormals below `2^(-126)` (grid `2^(-149)`), exactly
as IEEE-754 binary32 prescribes.  Overflow to infinity and NaN cannot arise
at these call sites (every intermediate magnitude is at most `2^64`, far
below the f32 overflow threshold `2^128`), so the model leaves the exponent
range unbounded above; the division-by-zero case is likewise unreachable
(the divisor is a list length greater than 2). -/

/-- A finite binary32 value, represented exactly as `m * 2^e`. -/
structure F32 where
  m : Int
  e : Int
deriving DecidableEq, Repr

/-- Number of binary digits of `n` (0 for 0), with structural fuel so that
kernel reduction works on literals; `n + 1` fuel always suffices. -/
def bitlenFuel : Nat → Nat → Nat
  | 0, _ => 0
  | fuel + 1, n => if n = 0 then 0 else bitlenFuel fuel (n / 2) + 1

def bitlen (n : Nat) : Nat := bitlenFuel (n + 1) n

/-- Round the rational `(p / q) * 2^sh` (with `q > 0`) to the nearest
binary32 value, ties to even: find the exponent `E` with
`2^E ≤ |x| < 2^(E+1)`, place the result on the grid `2^t` with
`t = max (E - 23) (-149)` (24-bit significand, subnormal grid below
`2^(-126)`), and round the scaled value to the nearest integer, ties to
even.  `q = 0` (division by zero, unreachable at the modelled call sites)
returns 0. -/
def roundToF32 (p : Int) (q : Nat) (sh : Int) : F32 :=
  if q = 0 then ⟨0, 0⟩
  else if p = 0 then ⟨0, 0⟩
  else
    let a : Nat := p.natAbs
    let la := bitlen a
    let lq := bitlen q
    let L : Int := (la : Int) - (lq : Int) + sh
    let E : Int := if q * 2 ^ la ≤ a * 2 ^ lq then L else L - 1
    let t : Int := max (E - 23) (-149)
    let N : Nat := a * 2 ^ (sh - t).toNat
    let Q : Nat := q * 2 ^ (t - sh).toNat
    let n0 := N / Q
    let rem := N % Q
    let mAbs : Nat :=
      if 2 * rem < Q then n0
      else if Q < 2 * rem then n0 + 1
      else if n0 % 2 = 0 then n0 else n0 + 1
    ⟨if p < 0 then -(mAbs : Int) else (mAbs : Int), t⟩

/-- `i as f32` / `i.as_f32()`: int-to-f32 conversion (round to nearest, ties
to even). -/
def fromInt32 (i : Int) : F32 := roundToF32 i 1 0

/-- f32 subtraction: the exact difference, correctly rounded. -/
def sub32 (a b : F32) : F32 :=
  let d : Int := min a.e b.e
  roundToF32 (a.m * ((2 ^ (a.e - d).toNat : Nat) : Int) -
    b.m * ((2 ^ (b.e - d).toNat : Nat) : Int)) 1 d

/-- f32 division: the exact quotient, correctly rounded. -/
def div32 (a b : F32) : F32 :=
  if 0 ≤ b.m then roundToF32 a.m b.m.natAbs (a.e - b.e)
  else roundToF32 (-a.m) b.m.natAbs (a.e - b.e)

/-- f32 comparison `a ≤ b` (both finite, so this is comparison of the exact
values). -/
def le32 (a b : F32) : Bool :=
  let d : Int := min a.e b.e
  a.m * ((2 ^ (a.e - d).toNat : Nat) : Int) ≤ b.m * ((2 ^ (b.e - d).toNat : Nat) : Int)

/-- The branch condition of `remove_largest_local_deviation_datapoint`
(refresh.rs lines 268-274): `front_deviation >= back_deviation` where
`mean = sum.as_f32() / len as f32`, `front_deviation = max.as_f32() - mean`
and `back_deviation = mean - min.as_f32()`, all in binary32 arithmetic. -/
def front_ge_back_f32 (datapoint_boxes : List Rate) (min_datapoint max_datapoint : Rate) :
    Bool :=
  let mean := div32 (fromInt32 datapoint_boxes.sum)
    (fromInt32 (datapoint_boxes.length : Int))
  let front_deviation := sub32 (fromInt32 max_datapoint) mean
  let back_deviation := sub32 mean (fromInt32 min_datapoint)
  le32 back_deviation front_deviation

/-- `remove_largest_local_deviation_datapoint` (refresh.rs lines 261-288).
Returns `none` for the `NotEnoughDatapoints` error when `len ≤ 2`.  The
branch comparing the deviations of the two extrema against the f32 mean is
`front_ge_back_f32` above.  When it holds (ties included) every element
equal to the maximum is removed (`filter (≠ max)`), otherwise every element
equal to the minimum. -/
def remove_largest_local_deviation_datapoint (datapoint_boxes : List Rate) :
    Option (List Rate) :=
  if datapoint_boxes.length ≤ 2 then none
  else
    match datapoint_boxes.min?, datapoint_boxes.max? with
    | some min_datapoint, some max_datapoint =>
        if front_ge_back_f32 datapoint_boxes min_datapoint max_datapoint then
          some (datapoint_boxes.filter (· ≠ max_datapoint))
        else
          some (datapoint_boxes.filter (· ≠ min_datapoint))
    | _, _ => none

/-- The `while !deviation_check { remove ... }` loop of
`filtered_oracle_boxes_by_rate`, with fuel for termination.  The initial
call supplies `length + 1` fuel, which is an upper bound on the number of
iterations since each removal strictly shrinks the list; `panic` from the
fuel-0 branch is therefore unreachable from `filtered_oracle_boxes_by_rate`.
`panic` from the empty branch models the source panicking inside
`deviation_check` on an empty survivor list. -/
def runFilter (deviation_range : Nat) : Nat → List Rate → FilterResult
  | 0, _ => .panic
  | fuel + 1, l =>
    if l.isEmpty then .panic
    else if deviation_check deviation_range l then .ok l
    else
      match remove_largest_local_deviation_datapoint l with
      | none => .notEnoughDatapoints
      | some l' => runFilter deviation_range fuel l'

/-- `filtered_oracle_boxes_by_rate` (refresh.rs lines 226-249): empty input
returns the empty list unchanged; otherwise the deviation-check/removal loop
runs until the survivor set passes or `NotEnoughDatapoints` is raised. -/
def filtered_oracle_boxes_by_rate (oracle_boxes : List Rate) (deviation_range : Nat) :
    FilterResult :=
  if oracle_boxes.isEmpty then .ok oracle_boxes
  else runFilter deviation_range (oracle_boxes.length + 1) oracle_boxes

/-- `calc_pool_rate` (refresh.rs lines 290-293): sum of the datapoints divided
by their count with Rust i64 division (truncation toward zero).  The source
panics on an empty list (division by zero); callers below guard that case. -/
def calc_pool_rate (oracle_boxes_rates : List Rate) : Rate :=
  Int.tdiv oracle_boxes_rates.sum oracle_boxes_rates.length

-- Rust i64 `/` truncates toward zero: sanity checks of the Int.tdiv model.
example : Int.tdiv (-50) 100 = 0 := by decide
example : Int.fdiv (-50) 100 = -1 := by decide
example : Int.tdiv (-3) 2 = -1 := by decide

-- The two worked examples from the spec (section 8).
example : filtered_oracle_boxes_by_rate [95, 96, 97, 98, 99, 200] 5 =
    .ok [95, 96, 97, 98, 99] := by decide
example : filtered_oracle_boxes_by_rate [70, 95, 96, 97, 98, 99] 5 =
    .ok [95, 96, 97, 98, 99] := by decide

/-- Largest ergo `TokenAmount` (i64::MAX); `checked_add` fails above it and
every token amount is at least 1. -/
def maxTokenAmount : Nat := 9223372036854775807

/-- A posted oracle box (`PostedOracleBox` accessors used by refresh.rs):
creation height, epoch counter, rate (R6), owner public key (R4, modelled as
an abstract Nat), current reward-token amount, oracle token id and box value. -/
structure OracleBoxS where
  creation_height : Nat
  epoch_counter : Nat
  rate : Rate
  public_key : Nat
  reward_amount : Nat
  oracle_token : Nat
  value : Nat
deriving DecidableEq, Repr

/-- The pool box fields consumed by refresh.rs (`PoolBoxWrapper` accessors):
epoch counter, posted rate, reward-token balance, pool NFT id and box value. -/
structure PoolBoxS where
  epoch_counter : Nat
  rate : Rate
  reward_amount : Nat
  pool_nft : Nat
  value : Nat
deriving DecidableEq, Repr

/-- The refresh box fields consumed by refresh.rs: the refresh NFT and value
(the epoch length parameter is passed separately, as the pipeline reads it
from the refresh contract). -/
structure RefreshBoxS where
  refresh_nft : Nat
  value : Nat
deriving DecidableEq, Repr

/-- Modelled from the spec: the `BuybackBoxWrapper` accessors (box_kind is not
under src/).  A buyback box optionally holds reward tokens ("reward-token
(0 or more)"); `reward_amount = some r` means the box holds `r ≥ 1` reward
tokens, `none` that it holds none. -/
structure BuybackBoxS where
  reward_amount : Option Nat
  value : Nat
deriving DecidableEq, Repr

/-- An output box candidate of the refresh / update transactions.  Modelled
from the spec where the candidate constructors (box_kind's
`make_pool_box_candidate`, `make_refresh_box_candidate`,
`make_collected_oracle_box_candidate`, `new_with_one_reward_token`) are not
under src/: each stores exactly the fields the call site passes. -/
inductive OutBox where
  | poolBox (epoch_counter : Nat) (rate : Rate) (reward_amount : Nat)
      (pool_nft : Nat) (value : Nat) (creation_height : Nat)
  | refreshBox (refresh_nft : Nat) (value : Nat) (creation_height : Nat)
  | oracleBox (public_key : Nat) (oracle_token : Nat) (reward_amount : Nat)
      (value : Nat) (creation_height : Nat)
  | buybackBox (reward_amount : Nat) (value : Nat) (creation_height : Nat)
deriving DecidableEq, Repr

/-- `RefreshActionError` (refresh.rs lines 43-65), restricted to the variants
the pure pipeline can produce; `panic` models a Rust panic from unwrapped
checked arithmetic (not a Result variant in the source). -/
inductive RefreshError where
  | failedToReachConsensus (found_public_keys : List Nat) (found_num : Int) (expected : Int)
  | notEnoughDatapoints
  | myOracleBoxNoFound
  | panic
deriving DecidableEq, Repr

/-- The parts of the assembled refresh transaction the claims are about:
the output candidate list, the context-extension value set on the refresh
box input, and the context-extension values set on the surviving oracle box
inputs (entry `i` is the value for the oracle input at survivor index `i`). -/
structure RefreshTx where
  output_candidates : List OutBox
  refresh_ctx : Int
  oracle_ctx : List Int
deriving DecidableEq, Repr

/-- `build_out_pool_box` (refresh.rs lines 295-328): epoch counter bumped by
one, reward balance decremented via `checked_sub(..).unwrap()` (`none` models
the underflow panic) and optionally increased by the buyback reward via
`checked_add(..).unwrap()` (`none` models the overflow panic); pool NFT and
box value are passed through unchanged. -/
def build_out_pool_box (in_pool_box : PoolBoxS) (creation_height : Nat) (rate : Rate)
    (reward_decrement : Nat) (buyback_reward : Option Nat) : Option OutBox :=
  if in_pool_box.reward_amount < reward_decrement then none
  else
    let decremented := in_pool_box.reward_amount - reward_decrement
    match buyback_reward with
    | some r =>
        if maxTokenAmount < decremented + r then none
        else some (.poolBox (in_pool_box.epoch_counter + 1) rate (decremented + r)
          in_pool_box.pool_nft in_pool_box.value creation_height)
    | none => some (.poolBox (in_pool_box.epoch_counter + 1) rate decremented
        in_pool_box.pool_nft in_pool_box.value creation_height)

/-- `build_out_refresh_box` (refresh.rs lines 330-341): passthrough of NFT and
value at the new creation height. -/
def build_out_refresh_box (in_refresh_box : RefreshBoxS) (creation_height : Nat) : OutBox :=
  .refreshBox in_refresh_box.refresh_nft in_refresh_box.value creation_height

/-- `build_out_oracle_boxes` (refresh.rs lines 343-374): one collected oracle
box per survivor; the reward amount grows by `1 + |survivors|` for every box
whose public key is the collector's, and by 1 otherwise
(`checked_add(..).unwrap()`: `none` models the overflow panic). -/
def build_out_oracle_boxes (valid_oracle_boxes : List OracleBoxS) (creation_height : Nat)
    (my_public_key : Nat) : Option (List OutBox) :=
  valid_oracle_boxes.mapM fun in_ob =>
    let increment := if in_ob.public_key = my_public_key
      then 1 + valid_oracle_boxes.length else 1
    if maxTokenAmount < in_ob.reward_amount + increment then none
    else some (.oracleBox in_ob.public_key in_ob.oracle_token
      (in_ob.reward_amount + increment) in_ob.value creation_height)

/-- Steps of `build_refresh_action` up to the sorted, epoch/height-filtered
posted boxes (refresh.rs lines 83-94): keep boxes with
`creation_height > height - epoch_length` and the pool box's epoch counter,
then stable-sort by rate (Rust's stable `sort_by_key`, modelled by the
stable insertion sort). -/
def posted_filtered_sorted (pool_epoch : Nat) (min_start_height : Nat)
    (posted : List OracleBoxS) : List OracleBoxS :=
  (posted.filter fun b =>
      decide (min_start_height < b.creation_height) &&
      decide (b.epoch_counter = pool_epoch)).insertionSort
    fun a b => a.rate ≤ b.rate

/-- The surviving oracle boxes of `build_refresh_action` (refresh.rs lines
95-102): the boxes of the sorted list whose rate is contained in the list
returned by the outlier filter; `none` when the filter fails. -/
def valid_oracle_boxes (deviation_range : Nat) (pool_epoch : Nat) (min_start_height : Nat)
    (posted : List OracleBoxS) : Option (List OracleBoxS) :=
  let sorted := posted_filtered_sorted pool_epoch min_start_height posted
  match filtered_oracle_boxes_by_rate (sorted.map (·.rate)) deviation_range with
  | .ok valid_rates => some (sorted.filter fun b => valid_rates.contains b.rate)
  | _ => none

/-- The output-candidate list before the oracle outputs are appended
(refresh.rs lines 150-178): `[pool, refresh]`, except that when a buyback box
holding reward tokens is supplied the pool box is rebuilt with the extra
`amount - 1` reward tokens and the buyback output (retaining exactly one
reward token, `new_with_one_reward_token`) is pushed at index 2.
`(amount - 1).try_into::<TokenAmount>().unwrap()` panics when the buyback box
holds exactly one reward token (a `TokenAmount` is at least 1). -/
def buyback_adjusted_candidates (in_pool_box : PoolBoxS) (height : Nat) (rate : Rate)
    (reward_decrement : Nat) (out_pool_box out_refresh_box : OutBox)
    (in_buyback_box_opt : Option BuybackBoxS) : Except RefreshError (List OutBox) :=
  match in_buyback_box_opt with
  | some buyback_box =>
    match buyback_box.reward_amount with
    | some r =>
      if r ≤ 1 then .error .panic
      else
        match build_out_pool_box in_pool_box height rate reward_decrement (some (r - 1)) with
        | none => .error .panic
        | some out_pool_box_w_buyback_rewards =>
          .ok [out_pool_box_w_buyback_rewards, out_refresh_box,
            .buybackBox 1 buyback_box.value height]
    | none => .ok [out_pool_box, out_refresh_box]
  | none => .ok [out_pool_box, out_refresh_box]

/-- The pure core of `build_refresh_action` (refresh.rs lines 68-224), with
the external collaborators (box sources, node wallet selection, signing)
replaced by their already-fetched pure values.  Steps, in source order:
epoch/height filtering and sorting of the posted boxes, the outlier filter,
the quorum check (`FailedToReachConsensus`), `calc_pool_rate` (panics on an
empty survivor set, reachable only when `min_data_points ≤ 0`), the collected
oracle box candidates, the collector's own box lookup (`MyOracleBoxNoFound`),
the new pool box (rebuilt with the extra reward when a buyback box holding
reward tokens is present; `(amount - 1).try_into().unwrap()` panics when the
buyback holds exactly 1 reward token), and finally the output-candidate list
`[pool, refresh] ++ [buyback?] ++ oracle outputs` together with the
context-extension values: the collector's survivor index on the refresh
input and `survivor index + 2` on each oracle input. -/
def build_refresh_action (in_pool_box : PoolBoxS) (in_refresh_box : RefreshBoxS)
    (epoch_length : Nat) (max_deviation_percent : Nat) (min_data_points : Int)
    (posted : List OracleBoxS) (height : Nat) (my_oracle_pk : Nat)
    (in_buyback_box_opt : Option BuybackBoxS) : Except RefreshError RefreshTx :=
  let min_start_height := height - epoch_length
  let sorted := posted_filtered_sorted in_pool_box.epoch_counter min_start_height posted
  match filtered_oracle_boxes_by_rate (sorted.map (·.rate)) max_deviation_percent with
  | .panic => .error .panic
  | .notEnoughDatapoints => .error .notEnoughDatapoints
  | .ok valid_rates =>
    let valid := sorted.filter fun b => valid_rates.contains b.rate
    if (valid.length : Int) < min_data_points then
      .error (.failedToReachConsensus (valid.map (·.public_key)) valid.length min_data_points)
    else if valid.isEmpty then
      .error .panic
    else
      let rate := calc_pool_rate (valid.map (·.rate))
      let reward_decrement := 2 * valid.length
      let out_refresh_box := build_out_refresh_box in_refresh_box height
      match build_out_oracle_boxes valid height my_oracle_pk with
      | none => .error .panic
      | some out_oracle_boxes =>
        match valid.findIdx? (fun b => b.public_key = my_oracle_pk) with
        | none => .error .myOracleBoxNoFound
        | some my_input_oracle_box_index =>
          match build_out_pool_box in_pool_box height rate reward_decrement none with
          | none => .error .panic
          | some out_pool_box =>
            match buyback_adjusted_candidates in_pool_box height rate reward_decrement
                out_pool_box out_refresh_box in_buyback_box_opt with
            | .error e => .error e
            | .ok candidates =>
              .ok { output_candidates := candidates ++ out_oracle_boxes
                    refresh_ctx := my_input_oracle_box_index
                    oracle_ctx :=
                      List.map (fun idx : Nat => (idx : Int) + 2) (List.range valid.length) }

/-- `CastBallotBoxVoteParameters` (box_kind; the fields are fixed by the spec
and by update_pool.rs lines 287-291): hash of the proposed pool contract,
optional new reward token (id, amount) and the update box's creation height.
Equality is structural, i.e. byte-identical on the underlying data. -/
structure VoteParams where
  pool_box_address_hash : Nat
  reward_token_opt : Option (Nat × Nat)
  update_box_creation_height : Int
deriving DecidableEq, Repr

/-- A ballot box as consumed by `build_update_pool_box_tx`
(`VoteBallotBoxWrapper` accessors): the vote parameters stored in its
registers, its ballot-token amount, the owner public key (R4), the guard
script and the box value. -/
structure BallotBoxS where
  vote_parameters : VoteParams
  ballot_token_amount : Nat
  ballot_token_owner : Nat
  script : Nat
  value : Nat
deriving DecidableEq, Repr

/-- An output ballot box candidate (update_pool.rs lines 378-390): same
script, value, ballot token and owner register as its input ballot box. -/
structure OutBallot where
  script : Nat
  value : Nat
  ballot_token_amount : Nat
  ballot_token_owner : Nat
deriving DecidableEq, Repr

/-- `UpdatePoolError::NotEnoughVotes` (update_pool.rs lines 45-48): the
positional fields are (expected, found, params). -/
inductive UpdatePoolError where
  | notEnoughVotes (expected : Nat) (found : Nat) (params : VoteParams)
deriving DecidableEq, Repr

/-- The parts of the pool-update transaction the claims are about: the
selected (qualifying) input ballot boxes and the output ballot candidates. -/
structure UpdatePoolTx where
  vote_ballot_boxes : List BallotBoxS
  ballot_outputs : List OutBallot
deriving DecidableEq, Repr

/-- The tally core of `build_update_pool_box_tx` (update_pool.rs lines
287-324 and 377-390): select the ballot boxes whose stored vote parameters
equal the target exactly, sum their ballot-token amounts as `votes_cast`,
fail with `NotEnoughVotes(min_votes, number of qualifying boxes, target)`
when `votes_cast < min_votes`, and otherwise reissue one output ballot per
qualifying input with script, value, ballot token and owner unchanged. -/
def build_update_pool_box_tx (ballot_boxes : List BallotBoxS) (min_votes : Nat)
    (vote_parameters : VoteParams) : Except UpdatePoolError UpdatePoolTx :=
  let vote_ballot_boxes := ballot_boxes.filter fun b =>
    decide (b.vote_parameters = vote_parameters)
  let votes_cast := (vote_ballot_boxes.map (·.ballot_token_amount)).sum
  if votes_cast < min_votes then
    .error (.notEnoughVotes min_votes vote_ballot_boxes.length vote_parameters)
  else
    .ok { vote_ballot_boxes := vote_ballot_boxes
          ballot_outputs := vote_ballot_boxes.map fun b =>
            { script := b.script
              value := b.value
              ballot_token_amount := b.ballot_token_amount
              ballot_token_owner := b.ballot_token_owner } }

/-- `DataPointSourceAggregator::fetch_datapoints_average` (datapoint_source.rs
lines 64-75): the joined fetch results (in order; `none` is a failed fetch)
are reduced to the successful values only, and their sum is divided by their
count with Rust i64 division.  When every fetch failed the division is by
zero, which panics in Rust: modelled as `none`; in every other case the
function returns `Ok(average)`. -/
def fetch_datapoints_average (results : List (Option Int)) : Option Int :=
  let ok_results := results.filterMap id
  if ok_results.isEmpty then none
  else some (Int.tdiv ok_results.sum ok_results.length)

/-! ### Helper lemmas about the outlier-removal step and loop -/

theorem remove_cases {l l' : List Rate}
    (h : remove_largest_local_deviation_datapoint l = some l') :
    2 < l.length ∧ ∃ mn mx, l.min? = some mn ∧ l.max? = some mx ∧
      ((front_ge_back_f32 l mn mx = true ∧ l' = l.filter (· ≠ mx)) ∨
       (front_ge_back_f32 l mn mx = false ∧ l' = l.filter (· ≠ mn))) := by
  unfold remove_largest_local_deviation_datapoint at h
  split at h
  · exact absurd h (by simp)
  · next hlen =>
    refine ⟨by omega, ?_⟩
    split at h
    · next mn mx hmn hmx =>
      refine ⟨mn, mx, hmn, hmx, ?_⟩
      split at h
      · next hcond =>
        exact Or.inl ⟨by simpa using hcond, by injection h with h; exact h.symm⟩
      · next hcond =>
        exact Or.inr ⟨by simpa using hcond, by injection h with h; exact h.symm⟩
    · exact absurd h (by simp)

theorem remove_sublist {l l' : List Rate}
    (h : remove_largest_local_deviation_datapoint l = some l') : l'.Sublist l := by
  obtain ⟨-, mn, mx, -, -, hc | hc⟩ := remove_cases h
  · exact hc.2 ▸ List.filter_sublist l
  · exact hc.2 ▸ List.filter_sublist l

theorem remove_length_lt {l l' : List Rate}
    (h : remove_largest_local_deviation_datapoint l = some l') : l'.length < l.length := by
  obtain ⟨-, mn, mx, hmn, hmx, hc | hc⟩ := remove_cases h
  · exact hc.2 ▸ List.length_filter_lt_length_iff_exists.mpr
      ⟨mx, List.max?_mem max_choice hmx, by simp⟩
  · exact hc.2 ▸ List.length_filter_lt_length_iff_exists.mpr
      ⟨mn, List.min?_mem min_choice hmn, by simp⟩

theorem runFilter_ok {deviation_range : Nat} :
    ∀ {fuel : Nat} {l r : List Rate}, runFilter deviation_range fuel l = .ok r →
      r.Sublist l ∧ deviation_check deviation_range r = true ∧ r ≠ [] := by
  intro fuel
  induction fuel with
  | zero => intro l r h; exact absurd h (by simp [runFilter])
  | succ fuel ih =>
    intro l r h
    unfold runFilter at h
    split at h
    · exact absurd h (by simp)
    · next hne =>
      split at h
      · next hchk =>
        injection h with h
        subst h
        exact ⟨List.Sublist.refl _, hchk, by simpa using hne⟩
      · next hchk =>
        split at h
        · exact absurd h (by simp)
        · next l' hrem =>
          obtain ⟨hsub, hc, hne'⟩ := ih h
          exact ⟨hsub.trans (remove_sublist hrem), hc, hne'⟩

/-- From a passing deviation check on a non-empty list, extract the min, max
and the bound. -/
theorem deviation_check_spec {deviation_range : Nat} {r : List Rate}
    (hne : r ≠ []) (h : deviation_check deviation_range r = true) :
    ∃ mn mx, r.min? = some mn ∧ r.max? = some mx ∧
      mx - mn ≤ Int.tdiv (mx * (deviation_range : Int)) 100 := by
  rcases hmn : r.min? with - | mn
  · exact absurd (List.min?_eq_none_iff.mp hmn) hne
  rcases hmx : r.max? with - | mx
  · exact absurd (List.max?_eq_none_iff.mp hmx) hne
  refine ⟨mn, mx, rfl, rfl, ?_⟩
  unfold deviation_check at h
  rw [hmn, hmx] at h
  exact of_decide_eq_true h

/-! ### C1 -/

/-- C1 (amended): the outlier filter `filtered_oracle_boxes_by_rate` maps the
empty input to the empty output; whenever it returns a survivor list, that
list is a sublist (hence subset) of the input and, for non-empty input, is
non-empty with `max - min ≤ max * D / 100` under Rust i64 division
(truncation toward zero, `Int.tdiv`); and every removal iteration strictly
decreases the size of the survivor set (hence the size is monotonically
non-increasing across iterations). -/
theorem C1_outlier_filter_subset_deviation_bound :
    (∀ D : Nat, filtered_oracle_boxes_by_rate [] D = .ok []) ∧
    (∀ (l : List Rate) (D : Nat) (r : List Rate),
      filtered_oracle_boxes_by_rate l D = .ok r →
        r.Sublist l ∧ (l ≠ [] → r ≠ [] ∧ ∃ mn mx, r.min? = some mn ∧ r.max? = some mx ∧
          mx - mn ≤ Int.tdiv (mx * (D : Int)) 100)) ∧
    (∀ l l' : List Rate, remove_largest_local_deviation_datapoint l = some l' →
      l'.length < l.length) := by
  refine ⟨fun D => by simp [filtered_oracle_boxes_by_rate], ?_, fun l l' h => remove_length_lt h⟩
  intro l D r h
  unfold filtered_oracle_boxes_by_rate at h
  split at h
  · next he =>
    injection h with h
    subst h
    exact ⟨List.Sublist.refl l, fun hne => absurd (by simpa using he) hne⟩
  · next he =>
    obtain ⟨hsub, hchk, hne⟩ := runFilter_ok h
    exact ⟨hsub, fun _ => ⟨hne, deviation_check_spec hne hchk⟩⟩

/-- Witness for C1: instantiating the filter theorem on the spec's worked
example `[95, 96, 97, 98, 99, 200]` with `D = 5`. -/
theorem C1_outlier_filter_subset_deviation_bound_witness :
    ([95, 96, 97, 98, 99] : List Rate).Sublist [95, 96, 97, 98, 99, 200] ∧
    (([95, 96, 97, 98, 99, 200] : List Rate) ≠ [] →
      ([95, 96, 97, 98, 99] : List Rate) ≠ [] ∧
      ∃ mn mx, ([95, 96, 97, 98, 99] : List Rate).min? = some mn ∧
        ([95, 96, 97, 98, 99] : List Rate).max? = some mx ∧
        mx - mn ≤ Int.tdiv (mx * ((5 : Nat) : Int)) 100) :=
  C1_outlier_filter_subset_deviation_bound.2.1 [95, 96, 97, 98, 99, 200] 5
    [95, 96, 97, 98, 99] (by decide)

/-- Counterexample to C1 as stated: with negative rates the deviation bound
computed by the code (Rust i64 truncating division) differs from integer
floor arithmetic.  On input `[-10, -10]` with `D = 5` the filter succeeds and
returns `[-10, -10]`, whose max and min satisfy the truncating bound
(`0 ≤ tdiv (-50) 100 = 0`) but violate the floor bound
(`0 ≤ fdiv (-50) 100 = -1` is false). -/
theorem C1_outlier_filter_floor_counterexample :
    filtered_oracle_boxes_by_rate [-10, -10] 5 = .ok [-10, -10] ∧
    ([-10, -10] : List Rate).max? = some (-10) ∧
    ([-10, -10] : List Rate).min? = some (-10) ∧
    ¬((-10 : Int) - (-10) ≤ Int.fdiv ((-10) * ((5 : Nat) : Int)) 100) := by
  refine ⟨by decide, by decide, by decide, by decide⟩

/-! ### C2 -/

/-- Counterexample to C2 as stated, in two parts.  (1) In a failing
iteration the code does not always remove exactly one datapoint: on the
survivor set `[0, 0, 10, 10]` (deviation check fails for `D = 5`) the removal
step drops BOTH copies of `10`, shrinking the set by two elements at once.
(2) The branch rule is not the claim's exact-mean comparison: on
`[16777216, 16777217, 16777218]` (around `2^24`) the exact mean is
`16777217`, an exact tie (`2 * sum = (max + min) * 3`), so the claim demands
dropping the maximum — but the code's f32 mean rounds to `16777218.0`
(front deviation `0.0 < 2.0` back deviation), and the code drops the
MINIMUM `16777216` instead. -/
theorem C2_exactly_one_removed_counterexample :
    (deviation_check 5 [0, 0, 10, 10] = false ∧
      remove_largest_local_deviation_datapoint [0, 0, 10, 10] = some [0, 0] ∧
      ([0, 0] : List Rate).length = 2 ∧ ([0, 0, 10, 10] : List Rate).length = 4 ∧
      ¬(([0, 0] : List Rate).length = ([0, 0, 10, 10] : List Rate).length - 1)) ∧
    (2 * ([16777216, 16777217, 16777218] : List Rate).sum =
        ((16777218 : Int) + 16777216) * ([16777216, 16777217, 16777218] : List Rate).length ∧
      remove_largest_local_deviation_datapoint [16777216, 16777217, 16777218] =
        some [16777217, 16777218] ∧
      (16777218 : Rate) ∈ ([16777217, 16777218] : List Rate) ∧
      (16777216 : Rate) ∉ ([16777217, 16777218] : List Rate)) := by
  refine ⟨⟨by decide, by decide, by decide, by decide, by decide⟩,
    by decide, by decide, by decide, by decide⟩

/-- C2 (amended): in every iteration of the outlier-rejection loop where a
removal happens, the code drops every datapoint equal to the selected
extremum (at least one, and several when the extremum value is duplicated):
all copies of the maximum when `max - mean ≥ mean - min` computed in binary32
floating-point arithmetic over the current survivor set (`front_ge_back_f32`;
ties in that f32 comparison favour the maximum), otherwise all copies of the
minimum.  The f32 rule agrees with the claim's exact-mean rule on values
exactly representable in f32 but can differ beyond f32 precision. -/
theorem C2_removal_drops_all_extremum_copies :
    ∀ (l l' : List Rate), remove_largest_local_deviation_datapoint l = some l' →
      2 < l.length ∧ l'.length < l.length ∧
      ∃ mn mx, l.min? = some mn ∧ l.max? = some mx ∧
        ((front_ge_back_f32 l mn mx = true ∧ mx ∈ l ∧ mx ∉ l' ∧
            (∀ x : Rate, x ∈ l' ↔ x ∈ l ∧ x ≠ mx)) ∨
         (front_ge_back_f32 l mn mx = false ∧ mn ∈ l ∧ mn ∉ l' ∧
            (∀ x : Rate, x ∈ l' ↔ x ∈ l ∧ x ≠ mn))) := by
  intro l l' h
  obtain ⟨hlen, mn, mx, hmn, hmx, hc | hc⟩ := remove_cases h
  · refine ⟨hlen, remove_length_lt h, mn, mx, hmn, hmx, Or.inl
      ⟨hc.1, List.max?_mem max_choice hmx, ?_, ?_⟩⟩
    · simp [hc.2]
    · intro x; simp [hc.2, List.mem_filter]
  · refine ⟨hlen, remove_length_lt h, mn, mx, hmn, hmx, Or.inr
      ⟨hc.1, List.min?_mem min_choice hmn, ?_, ?_⟩⟩
    · simp [hc.2]
    · intro x; simp [hc.2, List.mem_filter]

/-- Witness for C2 (amended), on the spec's worked example: from
`[95, 96, 97, 98, 99, 200]` the removal step drops the maximum `200`. -/
theorem C2_removal_drops_all_extremum_copies_witness :
    2 < ([95, 96, 97, 98, 99, 200] : List Rate).length ∧
    ([95, 96, 97, 98, 99] : List Rate).length <
      ([95, 96, 97, 98, 99, 200] : List Rate).length ∧
    ∃ mn mx, ([95, 96, 97, 98, 99, 200] : List Rate).min? = some mn ∧
      ([95, 96, 97, 98, 99, 200] : List Rate).max? = some mx ∧
      ((front_ge_back_f32 [95, 96, 97, 98, 99, 200] mn mx = true ∧
        mx ∈ ([95, 96, 97, 98, 99, 200] : List Rate) ∧
        mx ∉ ([95, 96, 97, 98, 99] : List Rate) ∧
        (∀ x : Rate, x ∈ ([95, 96, 97, 98, 99] : List Rate) ↔
          x ∈ ([95, 96, 97, 98, 99, 200] : List Rate) ∧ x ≠ mx)) ∨
       (front_ge_back_f32 [95, 96, 97, 98, 99, 200] mn mx = false ∧
        mn ∈ ([95, 96, 97, 98, 99, 200] : List Rate) ∧
        mn ∉ ([95, 96, 97, 98, 99] : List Rate) ∧
        (∀ x : Rate, x ∈ ([95, 96, 97, 98, 99] : List Rate) ↔
          x ∈ ([95, 96, 97, 98, 99, 200] : List Rate) ∧ x ≠ mn))) :=
  C2_removal_drops_all_extremum_copies [95, 96, 97, 98, 99, 200]
    [95, 96, 97, 98, 99] (by decide)

/-! ### C5: error conditions of the refresh pipeline -/

theorem remove_eq_none_iff {l : List Rate} :
    remove_largest_local_deviation_datapoint l = none ↔ l.length ≤ 2 := by
  constructor
  · intro h
    by_contra hlen
    have hne : l ≠ [] := by
      intro e; subst e; simp at hlen
    obtain ⟨mn, hmn⟩ : ∃ mn, l.min? = some mn := by
      rcases e : l.min? with - | mn
      · exact absurd (List.min?_eq_none_iff.mp e) hne
      · exact ⟨mn, rfl⟩
    obtain ⟨mx, hmx⟩ : ∃ mx, l.max? = some mx := by
      rcases e : l.max? with - | mx
      · exact absurd (List.max?_eq_none_iff.mp e) hne
      · exact ⟨mx, rfl⟩
    unfold remove_largest_local_deviation_datapoint at h
    rw [if_neg hlen] at h
    simp only [hmn, hmx] at h
    split at h <;> simp at h
  · intro h
    simp [remove_largest_local_deviation_datapoint, h]

/-- The survivor sets reachable from `l` by iterating the removal step of the
outlier-rejection loop: `l` itself, and one removal applied to a reachable
set on which the deviation check fails. -/
inductive Reaches (deviation_range : Nat) : List Rate → List Rate → Prop where
  | refl (l : List Rate) : Reaches deviation_range l l
  | step {l l' l'' : List Rate} :
      deviation_check deviation_range l = false →
      remove_largest_local_deviation_datapoint l = some l' →
      Reaches deviation_range l' l'' → Reaches deviation_range l l''

theorem runFilter_notEnough_iff {deviation_range : Nat} :
    ∀ (fuel : Nat) (l : List Rate), l.length < fuel →
      (runFilter deviation_range fuel l = .notEnoughDatapoints ↔
        ∃ l'', Reaches deviation_range l l'' ∧
          deviation_check deviation_range l'' = false ∧ l''.length ≤ 2) := by
  intro fuel
  induction fuel with
  | zero => intro l h; omega
  | succ fuel ih =>
    intro l hlen
    constructor
    · intro h
      unfold runFilter at h
      split at h
      · exact absurd h (by simp)
      · next hne =>
        split at h
        · exact absurd h (by simp)
        · next hchk =>
          split at h
          · next hrem =>
            exact ⟨l, .refl l, by simpa using hchk, remove_eq_none_iff.mp hrem⟩
          · next l' hrem =>
            obtain ⟨l'', R, hc, hl⟩ :=
              (ih l' (by have := remove_length_lt hrem; omega)).mp h
            exact ⟨l'', .step (by simpa using hchk) hrem R, hc, hl⟩
    · rintro ⟨l'', R, hc, hl2⟩
      cases R with
      | refl =>
        have hne : l ≠ [] := by
          intro e; subst e; simp [deviation_check] at hc
        unfold runFilter
        rw [if_neg (by simpa using hne), if_neg (by simp [hc])]
        simp only [remove_eq_none_iff.mpr hl2]
      | step h1 h2 R' =>
        have hne : l ≠ [] := by
          intro e; subst e; simp [deviation_check] at h1
        unfold runFilter
        rw [if_neg (by simpa using hne), if_neg (by simp [h1])]
        simp only [h2]
        exact (ih _ (by have := remove_length_lt h2; omega)).mpr ⟨l'', R', hc, hl2⟩

theorem filtered_notEnough_iff {l : List Rate} {deviation_range : Nat} :
    filtered_oracle_boxes_by_rate l deviation_range = .notEnoughDatapoints ↔
      ∃ l'', Reaches deviation_range l l'' ∧
        deviation_check deviation_range l'' = false ∧ l''.length ≤ 2 := by
  unfold filtered_oracle_boxes_by_rate
  split
  · next he =>
    have hl : l = [] := by simpa using he
    subst hl
    constructor
    · intro h; exact absurd h (by simp)
    · rintro ⟨l'', R, hc, -⟩
      cases R with
      | refl => simp [deviation_check] at hc
      | step h1 h2 R' =>
        rw [remove_eq_none_iff.mpr (by simp)] at h2
        exact absurd h2 (by simp)
  · exact runFilter_notEnough_iff (l.length + 1) l (by omega)

/-! ### Shape of a successful refresh build -/

theorem build_out_pool_box_shape {pool : PoolBoxS} {h : Nat} {rate : Rate}
    {dec : Nat} {bbr : Option Nat} {op : OutBox}
    (hb : build_out_pool_box pool h rate dec bbr = some op) :
    dec ≤ pool.reward_amount ∧
      op = .poolBox (pool.epoch_counter + 1) rate
        (pool.reward_amount - dec + (bbr.getD 0)) pool.pool_nft pool.value h := by
  unfold build_out_pool_box at hb
  split at hb
  · exact absurd hb (by simp)
  · next hle =>
    rcases bbr with - | r
    · exact ⟨by omega, by simpa using hb.symm⟩
    · simp only [Option.getD] at *
      split at hb
      · exact absurd hb (by simp)
      · exact ⟨by omega, by simpa using hb.symm⟩

theorem mapM_eq_some_map {α β : Type} {g : α → Option β} {f : α → β}
    (hf : ∀ a b, g a = some b → b = f a) :
    ∀ {l : List α} {out : List β}, l.mapM g = some out → out = l.map f := by
  intro l
  induction l with
  | nil =>
    intro out h
    rw [List.mapM_nil] at h
    injection h with h
    exact h.symm
  | cons x xs ih =>
    intro out h
    rw [List.mapM_cons] at h
    rcases hx : g x with - | b <;> rw [hx] at h
    · exact absurd h (by simp)
    · rcases hxs : xs.mapM g with - | ys <;> rw [hxs] at h
      · exact absurd h (by simp)
      · simp only [Option.bind_eq_bind, Option.some_bind, Option.pure_def] at h
        injection h with h
        rw [← h, List.map_cons, ← hf x b hx, ← ih hxs]

theorem build_out_oracle_boxes_eq_map {valid : List OracleBoxS} {h my : Nat}
    {outs : List OutBox} (hb : build_out_oracle_boxes valid h my = some outs) :
    outs = valid.map fun b => .oracleBox b.public_key b.oracle_token
      (b.reward_amount + if b.public_key = my then 1 + valid.length else 1) b.value h := by
  refine mapM_eq_some_map (fun a b hab => ?_) hb
  by_cases hpk : a.public_key = my
  · simp only [if_pos hpk] at hab ⊢
    split at hab
    · exact absurd hab (by simp)
    · injection hab with hab
      exact hab.symm
  · simp only [if_neg hpk] at hab ⊢
    split at hab
    · exact absurd hab (by simp)
    · injection hab with hab
      exact hab.symm

theorem buyback_adjusted_candidates_ok {pool : PoolBoxS} {h : Nat} {rate : Rate}
    {dec : Nat} {op0 orf : OutBox} {bb : Option BuybackBoxS} {c : List OutBox}
    (hc : buyback_adjusted_candidates pool h rate dec op0 orf bb = .ok c) :
    (∃ r bbv op, bb = some ⟨some r, bbv⟩ ∧ 1 < r ∧
      build_out_pool_box pool h rate dec (some (r - 1)) = some op ∧
      c = [op, orf, .buybackBox 1 bbv h]) ∨
    ((bb = none ∨ ∃ bbv, bb = some ⟨none, bbv⟩) ∧ c = [op0, orf]) := by
  rcases bb with - | ⟨bbr, bbv⟩
  · simp only [buyback_adjusted_candidates] at hc
    injection hc with hc
    exact Or.inr ⟨Or.inl rfl, hc.symm⟩
  · rcases bbr with - | r
    · simp only [buyback_adjusted_candidates] at hc
      injection hc with hc
      exact Or.inr ⟨Or.inr ⟨bbv, rfl⟩, hc.symm⟩
    · simp only [buyback_adjusted_candidates] at hc
      split at hc
      · exact absurd hc (by simp)
      · next hr =>
        split at hc
        · exact absurd hc (by simp)
        · next op hop =>
          injection hc with hc
          exact Or.inl ⟨r, bbv, op, rfl, by omega, hop, hc.symm⟩

/-- Every successful run of the refresh pipeline has this shape: the filter
succeeded, the quorum passed, the collector's box was found at index `idx`,
the context-extension values are `idx` (refresh input) and `i + 2` (oracle
input `i`), and the output candidates are the new pool box, the passthrough
refresh box, the buyback output holding exactly one reward token when a
buyback box with more than one reward token was supplied, and one collected
oracle box per survivor. -/
theorem build_ok_shape {pool : PoolBoxS} {rbox : RefreshBoxS} {el D : Nat} {M : Int}
    {posted : List OracleBoxS} {height my : Nat} {bb : Option BuybackBoxS} {tx : RefreshTx}
    (hb : build_refresh_action pool rbox el D M posted height my bb = .ok tx) :
    ∃ valid idx out_oracles,
      valid_oracle_boxes D pool.epoch_counter (height - el) posted = some valid ∧
      ¬((valid.length : Int) < M) ∧ valid ≠ [] ∧
      valid.findIdx? (fun b => b.public_key = my) = some idx ∧
      build_out_oracle_boxes valid height my = some out_oracles ∧
      tx.refresh_ctx = (idx : Int) ∧
      tx.oracle_ctx = List.map (fun i : Nat => (i : Int) + 2) (List.range valid.length) ∧
      ((∃ r bbv op, bb = some ⟨some r, bbv⟩ ∧ 1 < r ∧
          build_out_pool_box pool height (calc_pool_rate (valid.map (·.rate)))
            (2 * valid.length) (some (r - 1)) = some op ∧
          tx.output_candidates =
            [op, build_out_refresh_box rbox height, .buybackBox 1 bbv height]
              ++ out_oracles) ∨
       ((bb = none ∨ ∃ bbv, bb = some ⟨none, bbv⟩) ∧
        ∃ op, build_out_pool_box pool height (calc_pool_rate (valid.map (·.rate)))
            (2 * valid.length) none = some op ∧
          tx.output_candidates = [op, build_out_refresh_box rbox height] ++ out_oracles)) := by
  simp only [build_refresh_action] at hb
  split at hb
  · exact absurd hb (by simp)
  · exact absurd hb (by simp)
  · next vr heq =>
    split at hb
    · exact absurd hb (by simp)
    · next hM =>
      split at hb
      · exact absurd hb (by simp)
      · next hempty =>
        split at hb
        · exact absurd hb (by simp)
        · next outs houts =>
          split at hb
          · exact absurd hb (by simp)
          · next idx hidx =>
            split at hb
            · exact absurd hb (by simp)
            · next op0 hop0 =>
              split at hb
              · exact absurd hb (by simp)
              · next cands hcands =>
                injection hb with hb
                subst hb
                refine ⟨_, idx, outs, by simp [valid_oracle_boxes, heq], hM,
                  by simpa using hempty, hidx, houts, rfl, rfl, ?_⟩
                rcases buyback_adjusted_candidates_ok hcands with
                  ⟨r, bbv, op, hbb, hr1, hop, hc⟩ | ⟨hbb, hc⟩
                · exact Or.inl ⟨r, bbv, op, hbb, hr1, hop, by rw [hc]⟩
                · exact Or.inr ⟨hbb, op0, hop0, by rw [hc]⟩

/-! ### Error paths of the refresh pipeline -/

theorem buyback_adjusted_candidates_panic {pool : PoolBoxS} {h : Nat} {rate : Rate}
    {dec : Nat} {op0 orf : OutBox} {bb : Option BuybackBoxS} {e : RefreshError}
    (hc : buyback_adjusted_candidates pool h rate dec op0 orf bb = .error e) :
    e = .panic := by
  rcases bb with - | ⟨bbr, bbv⟩
  · exact absurd hc (by simp [buyback_adjusted_candidates])
  · rcases bbr with - | r
    · exact absurd hc (by simp [buyback_adjusted_candidates])
    · simp only [buyback_adjusted_candidates] at hc
      split at hc
      · injection hc with hc
        exact hc.symm
      · split at hc
        · injection hc with hc
          exact hc.symm
        · exact absurd hc (by simp)

theorem build_notEnough_iff_filtered {pool : PoolBoxS} {rbox : RefreshBoxS} {el D : Nat}
    {M : Int} {posted : List OracleBoxS} {height my : Nat} {bb : Option BuybackBoxS} :
    build_refresh_action pool rbox el D M posted height my bb =
        .error .notEnoughDatapoints ↔
      filtered_oracle_boxes_by_rate
        ((posted_filtered_sorted pool.epoch_counter (height - el) posted).map (·.rate)) D =
        .notEnoughDatapoints := by
  constructor
  · intro hb
    simp only [build_refresh_action] at hb
    split at hb
    · exact absurd hb (by simp)
    · next heq => exact heq
    · next vr heq =>
      split at hb
      · exact absurd hb (by simp)
      · split at hb
        · exact absurd hb (by simp)
        · split at hb
          · exact absurd hb (by simp)
          · split at hb
            · exact absurd hb (by simp)
            · split at hb
              · exact absurd hb (by simp)
              · split at hb
                · next e _ heq2 =>
                  rcases buyback_adjusted_candidates_panic heq2 with rfl
                  exact absurd hb (by simp)
                · exact absurd hb (by simp)
  · intro hf
    simp only [build_refresh_action, hf]

theorem build_ftc_forward {pool : PoolBoxS} {rbox : RefreshBoxS} {el D : Nat}
    {M : Int} {posted : List OracleBoxS} {height my : Nat} {bb : Option BuybackBoxS}
    {pks : List Nat} {found expected : Int}
    (hb : build_refresh_action pool rbox el D M posted height my bb =
      .error (.failedToReachConsensus pks found expected)) :
    ∃ valid, valid_oracle_boxes D pool.epoch_counter (height - el) posted = some valid ∧
      (valid.length : Int) < M ∧ pks = valid.map (·.public_key) ∧
      found = valid.length ∧ expected = M := by
  simp only [build_refresh_action] at hb
  split at hb
  · exact absurd hb (by simp)
  · exact absurd hb (by simp)
  · next vr heq =>
    split at hb
    · next hM =>
      refine ⟨_, by simp [valid_oracle_boxes, heq], hM, ?_⟩
      injection hb with hb
      injection hb with h1 h2 h3
      exact ⟨h1.symm, h2.symm, h3.symm⟩
    · split at hb
      · exact absurd hb (by simp)
      · split at hb
        · exact absurd hb (by simp)
        · split at hb
          · exact absurd hb (by simp)
          · split at hb
            · exact absurd hb (by simp)
            · split at hb
              · next e _ heq2 =>
                rcases buyback_adjusted_candidates_panic heq2 with rfl
                exact absurd hb (by simp)
              · exact absurd hb (by simp)

theorem build_ftc_backward {pool : PoolBoxS} {rbox : RefreshBoxS} {el D : Nat}
    {M : Int} {posted : List OracleBoxS} {height my : Nat} {bb : Option BuybackBoxS}
    {valid : List OracleBoxS}
    (hvob : valid_oracle_boxes D pool.epoch_counter (height - el) posted = some valid)
    (hM : (valid.length : Int) < M) :
    build_refresh_action pool rbox el D M posted height my bb =
      .error (.failedToReachConsensus (valid.map (·.public_key)) valid.length M) := by
  simp only [valid_oracle_boxes] at hvob
  split at hvob
  · next vr heq =>
    injection hvob with hvob
    subst hvob
    simp only [build_refresh_action, heq]
    rw [if_pos hM]
  · exact absurd hvob (by simp)

theorem build_myOracleBoxNoFound {pool : PoolBoxS} {rbox : RefreshBoxS} {el D : Nat}
    {M : Int} {posted : List OracleBoxS} {height my : Nat} {bb : Option BuybackBoxS}
    {valid : List OracleBoxS} {outs : List OutBox}
    (hvob : valid_oracle_boxes D pool.epoch_counter (height - el) posted = some valid)
    (hM : ¬((valid.length : Int) < M)) (hne : valid ≠ [])
    (houts : build_out_oracle_boxes valid height my = some outs)
    (hmy : ∀ b ∈ valid, b.public_key ≠ my) :
    build_refresh_action pool rbox el D M posted height my bb =
      .error .myOracleBoxNoFound := by
  simp only [valid_oracle_boxes] at hvob
  split at hvob
  · next vr heq =>
    injection hvob with hvob
    subst hvob
    simp only [build_refresh_action, heq]
    rw [if_neg hM, if_neg (fun hh => hne (by simpa using hh)), houts,
      List.findIdx?_eq_none_iff.mpr (by intro x hx; simpa using hmy x hx)]
  · exact absurd hvob (by simp)

/-! ### C5 -/

/-- C5: the refresh action fails with `NotEnoughDatapoints` exactly when the
outlier-removal loop reaches a survivor set of 2 or fewer datapoints on which
the deviation check fails, and fails with `FailedToReachConsensus` exactly
when the filter succeeded but the final survivor count is below the minimum
`M`, carrying the found count, the expected minimum and the survivors'
public keys. -/
theorem C5_refresh_failure_conditions :
    ∀ (pool : PoolBoxS) (rbox : RefreshBoxS) (el D : Nat) (M : Int)
      (posted : List OracleBoxS) (height my : Nat) (bb : Option BuybackBoxS),
      (build_refresh_action pool rbox el D M posted height my bb =
          .error .notEnoughDatapoints ↔
        ∃ l'', Reaches D ((posted_filtered_sorted pool.epoch_counter (height - el)
              posted).map (·.rate)) l'' ∧
          deviation_check D l'' = false ∧ l''.length ≤ 2) ∧
      (∀ (pks : List Nat) (found expected : Int),
        build_refresh_action pool rbox el D M posted height my bb =
            .error (.failedToReachConsensus pks found expected) ↔
          ∃ valid, valid_oracle_boxes D pool.epoch_counter (height - el) posted =
              some valid ∧
            (valid.length : Int) < M ∧ pks = valid.map (·.public_key) ∧
            found = (valid.length : Int) ∧ expected = M) := by
  intro pool rbox el D M posted height my bb
  refine ⟨build_notEnough_iff_filtered.trans filtered_notEnough_iff, ?_⟩
  intro pks found expected
  constructor
  · exact build_ftc_forward
  · rintro ⟨valid, hvob, hM, rfl, rfl, rfl⟩
    exact build_ftc_backward hvob hM

/-- Witness for C5: a two-datapoint set `[10, 20]` that fails the deviation
check yields `NotEnoughDatapoints`; three survivors against a minimum of 5
yield `FailedToReachConsensus` with found 3, expected 5 and their keys. -/
theorem C5_refresh_failure_conditions_witness :
    build_refresh_action ⟨1, 0, 100, 7, 10⟩ ⟨8, 5⟩ 10 5 2
        [⟨15, 1, 10, 1, 10, 9, 3⟩, ⟨15, 1, 20, 2, 10, 9, 3⟩] 20 1 none =
      .error .notEnoughDatapoints ∧
    build_refresh_action ⟨1, 0, 100, 7, 10⟩ ⟨8, 5⟩ 10 5 5
        [⟨15, 1, 100, 1, 10, 9, 3⟩, ⟨15, 1, 101, 2, 10, 9, 3⟩, ⟨15, 1, 102, 3, 10, 9, 3⟩]
        20 1 none =
      .error (.failedToReachConsensus [1, 2, 3] 3 5) :=
  ⟨(C5_refresh_failure_conditions ⟨1, 0, 100, 7, 10⟩ ⟨8, 5⟩ 10 5 2
      [⟨15, 1, 10, 1, 10, 9, 3⟩, ⟨15, 1, 20, 2, 10, 9, 3⟩] 20 1 none).1.mpr
      ⟨[10, 20], .refl _, by decide, by decide⟩,
    ((C5_refresh_failure_conditions ⟨1, 0, 100, 7, 10⟩ ⟨8, 5⟩ 10 5 5
      [⟨15, 1, 100, 1, 10, 9, 3⟩, ⟨15, 1, 101, 2, 10, 9, 3⟩, ⟨15, 1, 102, 3, 10, 9, 3⟩]
      20 1 none).2 [1, 2, 3] 3 5).mpr
      ⟨[⟨15, 1, 100, 1, 10, 9, 3⟩, ⟨15, 1, 101, 2, 10, 9, 3⟩, ⟨15, 1, 102, 3, 10, 9, 3⟩],
        rfl, by decide, by decide, by decide, by decide⟩⟩

/-! ### C9 -/

/-- C9: even when the outlier filter and the quorum check pass (and the
collected-oracle-box candidates build without overflow), the refresh fails
with `MyOracleBoxNoFound` when the invoking oracle's public key does not
appear among the surviving oracle boxes. -/
theorem C9_my_oracle_box_required :
    ∀ (pool : PoolBoxS) (rbox : RefreshBoxS) (el D : Nat) (M : Int)
      (posted : List OracleBoxS) (height my : Nat) (bb : Option BuybackBoxS)
      (valid : List OracleBoxS) (outs : List OutBox),
      valid_oracle_boxes D pool.epoch_counter (height - el) posted = some valid →
      ¬((valid.length : Int) < M) → valid ≠ [] →
      build_out_oracle_boxes valid height my = some outs →
      (∀ b ∈ valid, b.public_key ≠ my) →
      build_refresh_action pool rbox el D M posted height my bb =
        .error .myOracleBoxNoFound :=
  fun _ _ _ _ _ _ _ _ _ _ _ h1 h2 h3 h4 h5 =>
    build_myOracleBoxNoFound h1 h2 h3 h4 h5

/-- Witness for C9: three surviving oracle boxes with keys 2, 3, 4 and an
invoker key 1 that passes the quorum of 2 but is absent from the survivors. -/
theorem C9_my_oracle_box_required_witness :
    build_refresh_action ⟨1, 0, 100, 7, 10⟩ ⟨8, 5⟩ 10 5 2
        [⟨15, 1, 100, 2, 10, 9, 3⟩, ⟨15, 1, 101, 3, 10, 9, 3⟩, ⟨15, 1, 102, 4, 10, 9, 3⟩]
        20 1 none =
      .error .myOracleBoxNoFound :=
  C9_my_oracle_box_required ⟨1, 0, 100, 7, 10⟩ ⟨8, 5⟩ 10 5 2
    [⟨15, 1, 100, 2, 10, 9, 3⟩, ⟨15, 1, 101, 3, 10, 9, 3⟩, ⟨15, 1, 102, 4, 10, 9, 3⟩]
    20 1 none
    [⟨15, 1, 100, 2, 10, 9, 3⟩, ⟨15, 1, 101, 3, 10, 9, 3⟩, ⟨15, 1, 102, 4, 10, 9, 3⟩]
    [.oracleBox 2 9 11 3 20, .oracleBox 3 9 11 3 20, .oracleBox 4 9 11 3 20]
    rfl (by decide) (by decide) rfl (by decide)

/-! ### C4 -/

/-- C4 (amended): for every successful refresh, the first output candidate is
the new pool box, whose rate is the truncated (toward zero, Rust i64
division) mean of the surviving oracle rates, whose epoch counter is the
consumed pool box's epoch counter plus one, and whose pool NFT and box value
are unchanged. -/
theorem C4_pool_box_rate_and_epoch :
    ∀ (pool : PoolBoxS) (rbox : RefreshBoxS) (el D : Nat) (M : Int)
      (posted : List OracleBoxS) (height my : Nat) (bb : Option BuybackBoxS)
      (tx : RefreshTx),
      build_refresh_action pool rbox el D M posted height my bb = .ok tx →
      ∃ valid rwd,
        valid_oracle_boxes D pool.epoch_counter (height - el) posted = some valid ∧
        valid ≠ [] ∧
        tx.output_candidates.head? = some (.poolBox (pool.epoch_counter + 1)
          (calc_pool_rate (valid.map (·.rate))) rwd pool.pool_nft pool.value height) := by
  intro pool rbox el D M posted height my bb tx hb
  obtain ⟨valid, idx, outs, hvob, hM, hne, hidx, houts, hctx1, hctx2, hout⟩ :=
    build_ok_shape hb
  rcases hout with ⟨r, bbv, op, hbb, hr, hop, hcand⟩ | ⟨hbb, op, hop, hcand⟩
  · obtain ⟨hdec, rfl⟩ := build_out_pool_box_shape hop
    exact ⟨valid, _, hvob, hne, by rw [hcand]; rfl⟩
  · obtain ⟨hdec, rfl⟩ := build_out_pool_box_shape hop
    exact ⟨valid, _, hvob, hne, by rw [hcand]; rfl⟩

/-- Witness for C4 on a concrete successful refresh: survivors with rates
`[100, 101, 102]` give the new pool rate `101`, epoch `1 + 1 = 2`, and the
pool NFT `7` and value `10` unchanged. -/
theorem C4_pool_box_rate_and_epoch_witness :
    ∃ valid rwd,
      valid_oracle_boxes 5 1 10
          [⟨15, 1, 100, 1, 10, 9, 3⟩, ⟨15, 1, 101, 2, 10, 9, 3⟩, ⟨15, 1, 102, 3, 10, 9, 3⟩] =
        some valid ∧
      valid ≠ [] ∧
      (RefreshTx.mk [.poolBox 2 101 94 7 10 20, .refreshBox 8 5 20,
          .oracleBox 1 9 14 3 20, .oracleBox 2 9 11 3 20, .oracleBox 3 9 11 3 20]
          0 [2, 3, 4]).output_candidates.head? =
        some (.poolBox 2 (calc_pool_rate (valid.map (·.rate))) rwd 7 10 20) :=
  C4_pool_box_rate_and_epoch ⟨1, 0, 100, 7, 10⟩ ⟨8, 5⟩ 10 5 2
    [⟨15, 1, 100, 1, 10, 9, 3⟩, ⟨15, 1, 101, 2, 10, 9, 3⟩, ⟨15, 1, 102, 3, 10, 9, 3⟩]
    20 1 none
    (RefreshTx.mk [.poolBox 2 101 94 7 10 20, .refreshBox 8 5 20,
      .oracleBox 1 9 14 3 20, .oracleBox 2 9 11 3 20, .oracleBox 3 9 11 3 20]
      0 [2, 3, 4])
    rfl

/-- Counterexample to C4 as stated: with surviving rates `[-5, 2]` (allowed
by deviation bound `D = 400`) the code's pool rate is the truncated mean
`tdiv (-3) 2 = -1`, but the floor mean is `fdiv (-3) 2 = -2`, so the new
rate is not the integer floor mean. -/
theorem C4_floor_rate_counterexample :
    build_refresh_action ⟨1, 0, 100, 7, 10⟩ ⟨8, 5⟩ 10 400 2
        [⟨15, 1, -5, 1, 10, 9, 3⟩, ⟨15, 1, 2, 2, 10, 9, 3⟩] 20 1 none =
      .ok { output_candidates := [.poolBox 2 (-1) 96 7 10 20, .refreshBox 8 5 20,
              .oracleBox 1 9 13 3 20, .oracleBox 2 9 11 3 20],
            refresh_ctx := 0, oracle_ctx := [2, 3] } ∧
    calc_pool_rate [-5, 2] = -1 ∧
    Int.fdiv ((-5) + 2) 2 = -2 ∧ ((-1 : Int) ≠ -2) :=
  ⟨rfl, by decide, by decide, by decide⟩

/-! ### C3 -/

/-- C3: reward-token bookkeeping of the refresh.  With `N` survivors the new
pool box's reward balance is the old balance minus `2N`; when a buyback box
holding `R > 1` reward tokens is present the pool balance is additionally
increased by `R - 1` and the buyback output (at output index 2) retains
exactly 1 reward token; each survivor's collected output gains 1 reward
token, except every survivor box carrying the invoking collector's public
key, which gains `1 + N`. -/
theorem C3_reward_token_bookkeeping :
    (∀ (pool : PoolBoxS) (h : Nat) (rate : Rate) (N : Nat),
      2 * N ≤ pool.reward_amount →
      build_out_pool_box pool h rate (2 * N) none =
        some (.poolBox (pool.epoch_counter + 1) rate (pool.reward_amount - 2 * N)
          pool.pool_nft pool.value h)) ∧
    (∀ (pool : PoolBoxS) (h : Nat) (rate : Rate) (N R : Nat),
      2 * N ≤ pool.reward_amount → 1 < R →
      pool.reward_amount - 2 * N + (R - 1) ≤ maxTokenAmount →
      build_out_pool_box pool h rate (2 * N) (some (R - 1)) =
        some (.poolBox (pool.epoch_counter + 1) rate
          (pool.reward_amount - 2 * N + (R - 1)) pool.pool_nft pool.value h)) ∧
    (∀ (valid : List OracleBoxS) (h my : Nat) (outs : List OutBox),
      build_out_oracle_boxes valid h my = some outs →
      outs = valid.map fun b => OutBox.oracleBox b.public_key b.oracle_token
        (b.reward_amount + if b.public_key = my then 1 + valid.length else 1) b.value h) ∧
    (∀ (pool : PoolBoxS) (rbox : RefreshBoxS) (el D : Nat) (M : Int)
      (posted : List OracleBoxS) (height my : Nat) (r bbv : Nat) (tx : RefreshTx),
      build_refresh_action pool rbox el D M posted height my (some ⟨some r, bbv⟩) =
        .ok tx →
      tx.output_candidates[2]? = some (.buybackBox 1 bbv height)) := by
  refine ⟨?_, ?_, ?_, ?_⟩
  · intro pool h rate N hle
    unfold build_out_pool_box
    rw [if_neg (by omega)]
  · intro pool h rate N R hle hR hbound
    unfold build_out_pool_box
    rw [if_neg (by omega)]
    simp only []
    rw [if_neg (by omega)]
  · intro valid h my outs houts
    exact build_out_oracle_boxes_eq_map houts
  · intro pool rbox el D M posted height my r bbv tx hb
    obtain ⟨valid, idx, outs, hvob, hM, hne, hidx, houts, hctx1, hctx2, hout⟩ :=
      build_ok_shape hb
    rcases hout with ⟨r', bbv', op, hbb, hr, hop, hcand⟩ | ⟨hbb, op, hop, hcand⟩
    · injection hbb with hbb
      cases hbb
      simp [hcand]
    · rcases hbb with hbb | ⟨bbv', hbb⟩
      · exact absurd hbb (by simp)
      · injection hbb with hbb
        exact absurd (congrArg BuybackBoxS.reward_amount hbb) (by simp)

/-- Witness for C3: concrete instances of all four conjuncts — pool reward
`100 - 6 = 94` without buyback, `100 - 6 + 99 = 193` with a buyback holding
100 reward tokens, oracle outputs `+4` for the collector (N = 3) and `+1`
otherwise, and the buyback output at index 2 retaining exactly one reward
token. -/
theorem C3_reward_token_bookkeeping_witness :
    build_out_pool_box ⟨1, 0, 100, 7, 10⟩ 20 5 (2 * 3) none =
      some (.poolBox 2 5 94 7 10 20) ∧
    build_out_pool_box ⟨1, 0, 100, 7, 10⟩ 20 5 (2 * 3) (some (100 - 1)) =
      some (.poolBox 2 5 193 7 10 20) ∧
    ([.oracleBox 1 9 14 3 20, .oracleBox 2 9 11 3 20, .oracleBox 3 9 11 3 20] :
        List OutBox) =
      ([⟨15, 1, 100, 1, 10, 9, 3⟩, ⟨15, 1, 101, 2, 10, 9, 3⟩,
        ⟨15, 1, 102, 3, 10, 9, 3⟩] : List OracleBoxS).map
        (fun b => OutBox.oracleBox b.public_key b.oracle_token
          (b.reward_amount + if b.public_key = 1 then 4 else 1) b.value 20) ∧
    (RefreshTx.mk [.poolBox 2 101 193 7 10 20, .refreshBox 8 5 20, .buybackBox 1 4 20,
        .oracleBox 1 9 14 3 20, .oracleBox 2 9 11 3 20, .oracleBox 3 9 11 3 20]
        0 [2, 3, 4]).output_candidates[2]? = some (.buybackBox 1 4 20) :=
  ⟨C3_reward_token_bookkeeping.1 ⟨1, 0, 100, 7, 10⟩ 20 5 3 (by decide),
    C3_reward_token_bookkeeping.2.1 ⟨1, 0, 100, 7, 10⟩ 20 5 3 100 (by decide) (by decide)
      (by decide),
    C3_reward_token_bookkeeping.2.2.1
      [⟨15, 1, 100, 1, 10, 9, 3⟩, ⟨15, 1, 101, 2, 10, 9, 3⟩, ⟨15, 1, 102, 3, 10, 9, 3⟩]
      20 1 [.oracleBox 1 9 14 3 20, .oracleBox 2 9 11 3 20, .oracleBox 3 9 11 3 20] rfl,
    C3_reward_token_bookkeeping.2.2.2 ⟨1, 0, 100, 7, 10⟩ ⟨8, 5⟩ 10 5 2
      [⟨15, 1, 100, 1, 10, 9, 3⟩, ⟨15, 1, 101, 2, 10, 9, 3⟩, ⟨15, 1, 102, 3, 10, 9, 3⟩]
      20 1 100 4
      (RefreshTx.mk [.poolBox 2 101 193 7 10 20, .refreshBox 8 5 20, .buybackBox 1 4 20,
        .oracleBox 1 9 14 3 20, .oracleBox 2 9 11 3 20, .oracleBox 3 9 11 3 20]
        0 [2, 3, 4])
      rfl⟩

/-! ### C6 -/

/-- C6 (divergence at the failing input): in a refresh with a buyback box
holding more than one reward token, the buyback output occupies output index
2 and the surviving oracle boxes' outputs start at index 3, yet the
context-extension value set on the oracle input at survivor index 0 is still
`0 + 2 = 2` (refresh.rs line 204 computes `idx + 2` regardless of the
buyback output inserted at index 2), so it no longer equals the position of
that input's corresponding output. -/
theorem C6_context_extension_buyback_off_by_one :
    build_refresh_action ⟨1, 0, 100, 7, 10⟩ ⟨8, 5⟩ 10 5 2
        [⟨15, 1, 100, 1, 10, 9, 3⟩, ⟨15, 1, 101, 2, 10, 9, 3⟩, ⟨15, 1, 102, 3, 10, 9, 3⟩]
        20 1 (some ⟨some 100, 4⟩) =
      .ok { output_candidates := [.poolBox 2 101 193 7 10 20, .refreshBox 8 5 20,
              .buybackBox 1 4 20, .oracleBox 1 9 14 3 20, .oracleBox 2 9 11 3 20,
              .oracleBox 3 9 11 3 20],
            refresh_ctx := 0, oracle_ctx := [2, 3, 4] } ∧
    ([2, 3, 4] : List Int)[0]? = some 2 ∧
    ([.poolBox 2 101 193 7 10 20, .refreshBox 8 5 20, .buybackBox 1 4 20,
      .oracleBox 1 9 14 3 20, .oracleBox 2 9 11 3 20, .oracleBox 3 9 11 3 20] :
        List OutBox)[3]? = some (.oracleBox 1 9 14 3 20) ∧
    ([.poolBox 2 101 193 7 10 20, .refreshBox 8 5 20, .buybackBox 1 4 20,
      .oracleBox 1 9 14 3 20, .oracleBox 2 9 11 3 20, .oracleBox 3 9 11 3 20] :
        List OutBox)[2]? = some (.buybackBox 1 4 20) ∧
    ((2 : Int) ≠ 3) :=
  ⟨rfl, by decide, by decide, by decide, by decide⟩

/-! ### C7 -/

/-- C7: the pool-update tally selects exactly the ballot boxes whose stored
vote parameters equal the target key (structural, byte-identical equality),
succeeds if and only if their summed ballot-token weight reaches `min_votes`,
and on success reissues one output ballot box per qualifying input with
script, value, ballot token and owner register unchanged. -/
theorem C7_update_pool_tally :
    ∀ (ballot_boxes : List BallotBoxS) (min_votes : Nat) (target : VoteParams),
      ((∃ tx, build_update_pool_box_tx ballot_boxes min_votes target = .ok tx) ↔
        min_votes ≤ ((ballot_boxes.filter fun b =>
          decide (b.vote_parameters = target)).map (·.ballot_token_amount)).sum) ∧
      (∀ tx, build_update_pool_box_tx ballot_boxes min_votes target = .ok tx →
        tx.vote_ballot_boxes =
          ballot_boxes.filter (fun b => decide (b.vote_parameters = target)) ∧
        (∀ b, b ∈ tx.vote_ballot_boxes ↔ b ∈ ballot_boxes ∧ b.vote_parameters = target) ∧
        tx.ballot_outputs = tx.vote_ballot_boxes.map (fun b =>
          { script := b.script, value := b.value,
            ballot_token_amount := b.ballot_token_amount,
            ballot_token_owner := b.ballot_token_owner })) := by
  intro ballot_boxes min_votes target
  constructor
  · constructor
    · rintro ⟨tx, htx⟩
      by_contra hlt
      rw [not_le] at hlt
      simp only [build_update_pool_box_tx] at htx
      rw [if_pos hlt] at htx
      exact absurd htx (by simp)
    · intro hle
      refine ⟨UpdatePoolTx.mk
          (ballot_boxes.filter (fun b => decide (b.vote_parameters = target)))
          ((ballot_boxes.filter (fun b => decide (b.vote_parameters = target))).map
            (fun b => OutBallot.mk b.script b.value b.ballot_token_amount
              b.ballot_token_owner)), ?_⟩
      simp only [build_update_pool_box_tx]
      rw [if_neg (not_lt.mpr hle)]
  · intro tx htx
    simp only [build_update_pool_box_tx] at htx
    split at htx
    · exact absurd htx (by simp)
    · injection htx with htx
      subst htx
      refine ⟨rfl, ?_, rfl⟩
      intro b
      simp [List.mem_filter]

/-- Witness for C7: one qualifying ballot with 2 ballot tokens against a
threshold of 2 succeeds and is reissued unchanged; the non-qualifying ballot
is excluded. -/
theorem C7_update_pool_tally_witness :
    (UpdatePoolTx.mk [⟨⟨5, none, 0⟩, 2, 11, 12, 13⟩]
        [⟨12, 13, 2, 11⟩]).vote_ballot_boxes =
      ([⟨⟨5, none, 0⟩, 2, 11, 12, 13⟩, ⟨⟨6, none, 0⟩, 9, 21, 22, 23⟩] :
        List BallotBoxS).filter (fun b => decide (b.vote_parameters = ⟨5, none, 0⟩)) ∧
    (∀ b, b ∈ (UpdatePoolTx.mk [⟨⟨5, none, 0⟩, 2, 11, 12, 13⟩]
        [⟨12, 13, 2, 11⟩]).vote_ballot_boxes ↔
      b ∈ ([⟨⟨5, none, 0⟩, 2, 11, 12, 13⟩, ⟨⟨6, none, 0⟩, 9, 21, 22, 23⟩] :
        List BallotBoxS) ∧ b.vote_parameters = ⟨5, none, 0⟩) ∧
    (UpdatePoolTx.mk [⟨⟨5, none, 0⟩, 2, 11, 12, 13⟩]
        [⟨12, 13, 2, 11⟩]).ballot_outputs =
      (UpdatePoolTx.mk [⟨⟨5, none, 0⟩, 2, 11, 12, 13⟩]
        [⟨12, 13, 2, 11⟩]).vote_ballot_boxes.map (fun b =>
          { script := b.script, value := b.value,
            ballot_token_amount := b.ballot_token_amount,
            ballot_token_owner := b.ballot_token_owner }) :=
  (C7_update_pool_tally [⟨⟨5, none, 0⟩, 2, 11, 12, 13⟩, ⟨⟨6, none, 0⟩, 9, 21, 22, 23⟩]
    2 ⟨5, none, 0⟩).2
    (UpdatePoolTx.mk [⟨⟨5, none, 0⟩, 2, 11, 12, 13⟩] [⟨12, 13, 2, 11⟩]) rfl

/-! ### C8 -/

/-- Counterexample to C8 as stated: the second ("found") field of
`NotEnoughVotes` is the NUMBER of qualifying ballot boxes
(`vote_ballot_boxes.len()`, update_pool.rs line 321), not their summed
ballot-token weight.  A single qualifying ballot box carrying 2 ballot
tokens against a threshold of 5 fails with found = 1 while the summed
weight is 2. -/
theorem C8_found_field_counterexample :
    build_update_pool_box_tx [⟨⟨5, none, 0⟩, 2, 11, 12, 13⟩] 5 ⟨5, none, 0⟩ =
      .error (.notEnoughVotes 5 1 ⟨5, none, 0⟩) ∧
    ((([⟨⟨5, none, 0⟩, 2, 11, 12, 13⟩] : List BallotBoxS).filter
      (fun b => decide (b.vote_parameters = ⟨5, none, 0⟩))).map
        (·.ballot_token_amount)).sum = 2 ∧
    (1 : Nat) ≠ 2 :=
  ⟨rfl, by decide, by decide⟩

/-- C8 (amended): when the summed qualifying ballot-token weight is below
`min_votes`, the tally fails with `NotEnoughVotes` whose expected field is
`min_votes`, whose found field is the NUMBER of qualifying ballot boxes
(equal to the summed weight only when every ballot box carries exactly one
ballot token), and whose params field is the target vote key; no transaction
is produced. -/
theorem C8_not_enough_votes :
    ∀ (ballot_boxes : List BallotBoxS) (min_votes : Nat) (target : VoteParams),
      ((ballot_boxes.filter fun b => decide (b.vote_parameters = target)).map
        (·.ballot_token_amount)).sum < min_votes →
      build_update_pool_box_tx ballot_boxes min_votes target =
        .error (.notEnoughVotes min_votes
          (ballot_boxes.filter fun b => decide (b.vote_parameters = target)).length
          target) := by
  intro ballot_boxes min_votes target hlt
  simp only [build_update_pool_box_tx]
  rw [if_pos hlt]

/-- Witness for C8 (amended): the single 2-token ballot against a threshold
of 5. -/
theorem C8_not_enough_votes_witness :
    build_update_pool_box_tx [⟨⟨5, none, 0⟩, 2, 11, 12, 13⟩] 5 ⟨5, none, 0⟩ =
      .error (.notEnoughVotes 5
        (([⟨⟨5, none, 0⟩, 2, 11, 12, 13⟩] : List BallotBoxS).filter
          (fun b => decide (b.vote_parameters = ⟨5, none, 0⟩))).length ⟨5, none, 0⟩) :=
  C8_not_enough_votes [⟨⟨5, none, 0⟩, 2, 11, 12, 13⟩] 5 ⟨5, none, 0⟩ (by decide)

/-! ### C10 -/

/-- C10: the aggregator's average divides the sum of the successful fetch
results by the count of successful fetches only (failed fetches are excluded
from both the sum and the divisor), and the all-fetches-failed case (an
empty successful-result set) is the only failure (a division-by-zero panic
in the source, modelled as `none`). -/
theorem C10_aggregator_average :
    ∀ results : List (Option Int),
      (results.filterMap id ≠ [] →
        fetch_datapoints_average results =
          some (Int.tdiv (results.filterMap id).sum (results.filterMap id).length)) ∧
      (fetch_datapoints_average results = none ↔ results.filterMap id = []) := by
  intro results
  constructor
  · intro h
    simp only [fetch_datapoints_average]
    rw [if_neg (fun hh => h (by simpa using hh))]
  · simp only [fetch_datapoints_average]
    constructor
    · intro h
      split at h
      · next he => simpa using he
      · exact absurd h (by simp)
    · intro h
      rw [if_pos (by simpa using h)]

/-- Witness for C10: fetch results `[ok 3, err, ok 5]` average to
`(3 + 5) / 2 = 4`, ignoring the failed fetch entirely. -/
theorem C10_aggregator_average_witness :
    fetch_datapoints_average [some 3, none, some 5] =
      some (Int.tdiv (([some 3, none, some 5] : List (Option Int)).filterMap id).sum
        (([some 3, none, some 5] : List (Option Int)).filterMap id).length) :=
  (C10_aggregator_average [some 3, none, some 5]).1 (by decide)

end OracleCore
